import Mathlib

/-!
Shallow embedding of `read_parquet.py`, a diagnostic CLI that prints the
schema and the first N rows of a Parquet file.

The script is a sequencing of three external library calls (pyarrow schema
read, polars row read, pyarrow metadata read) and print statements.  We model
each print call as one element of a list of lines, the external calls as an
oracle record `LibOracle` holding their results, and `sys.exit` as the exit
code of an `Output` record.  The embedded `read_parquet_info_polars` mirrors
the control flow of the Python function line by line: the inner try/except
around the schema read, the note block guarded by
`df.height == 0 and num_rows > 0`, and the outer except clauses that map each
exception class to a stderr message and exit code 1.
-/

namespace ReadParquet

/-- The record batch returned by the row reader: a list of rows. -/
structure DataFrame where
  rows : List (List String)
deriving DecidableEq

/-- Height of the batch, as inspected by `df_first_rows.height`. -/
def DataFrame.height (df : DataFrame) : Nat := df.rows.length

/-- The string representation printed by `print(df_first_rows)`. -/
def DataFrame.render (df : DataFrame) : String :=
  String.intercalate "\n" (df.rows.map (fun r => String.intercalate " | " r))

/-- Exception classes distinguished by the outer except clauses of the
Python function. -/
inductive ReadExc where
  | fileNotFound
  | computeError (msg : String)
  | noDataError
  | importError
  | otherError (msg : String)
deriving DecidableEq

/-- Results of the three external library calls made by the script, for the
given file path: the pyarrow schema read (string representation of the schema,
or the message of the exception it raised), the polars row read as a function
of the row limit passed, and the pyarrow metadata read (total row count, or
failure). -/
structure LibOracle where
  schemaRead : Except String String
  readParquet : Int → Except ReadExc DataFrame
  readMetadata : Except Unit Nat

/-- Thirty hyphens, `"-" * 30`. -/
def dashLine : String := "------------------------------"

/-- A single-quote character, kept out of string literals. -/
def sq : String := String.singleton (Char.ofNat 39)

/-- The module-level default for the row count. -/
def DEFAULT_NUM_ROWS : Int := 3

/-- Lines printed by step 1 of the function: the schema header, then either
the schema string or the two warning lines of the inner except clause, then
the closing dashes and the `print("\n")` spacer. -/
def schemaBlock (file_path : String) (res : Except String String) : List String :=
  [dashLine, "Schema for " ++ file_path ++ " (via pyarrow):", dashLine] ++
  (match res with
   | .ok s => [s]
   | .error e =>
       ["Could not read schema using pyarrow: " ++ e,
        "Will proceed to try reading data with Polars."]) ++
  [dashLine, "\n"]

/-- Header lines printed just before the polars row read. -/
def rowHeader (file_path : String) (num_rows : Int) : List String :=
  [dashLine,
   "First " ++ toString num_rows ++ " rows from " ++ file_path ++ " (via Polars):",
   dashLine]

/-- Everything printed to standard output before the `pl.read_parquet` call. -/
def preReadStdout (file_path : String) (num_rows : Int)
    (res : Except String String) : List String :=
  schemaBlock file_path res ++ rowHeader file_path num_rows

/-- The note printed when the metadata says the file has zero rows. -/
def emptyNote : String := "\nNote: The Parquet file appears to contain 0 rows."

/-- The note printed when the metadata reports rows but none were returned. -/
def readRowsNote (h : Nat) : String := "\nNote: Read " ++ toString h ++ " rows."

/-- The note printed when the metadata read itself fails. -/
def metaFailNote : String :=
  "\nNote: Read 0 rows (unable to check file metadata for total rows)."

/-- The note block of the function: entered only when the returned batch has
zero rows and the requested count is positive, then branching on the
metadata read. -/
def rowNote (df : DataFrame) (num_rows : Int)
    (metaRes : Except Unit Nat) : List String :=
  if df.height = 0 ∧ 0 < num_rows then
    match metaRes with
    | .ok m =>
        if m = 0 then [emptyNote] else [readRowsNote df.height]
    | .error _ => [metaFailNote]
  else []

/-- Stderr lines of each outer except clause.  The ImportError clause issues
two print calls; every other clause issues one. -/
def errLines (file_path : String) : ReadExc → List String
  | .fileNotFound => ["Error: File not found at " ++ file_path]
  | .computeError m => ["Polars Compute Error: " ++ m]
  | .noDataError =>
      ["Error: Polars reported no data found for path " ++ file_path]
  | .importError =>
      ["Error: Make sure " ++ sq ++ "polars" ++ sq ++ " and " ++ sq ++
         "pyarrow" ++ sq ++ " libraries are installed.",
       "Run: pip install polars pyarrow"]
  | .otherError m => ["An unexpected error occurred: " ++ m]

/-- Observable behavior of one invocation: the sequence of print payloads on
each stream and the process exit code. -/
structure Output where
  stdout : List String
  stderr : List String
  exitCode : Nat
deriving DecidableEq

/-- The embedded `read_parquet_info_polars`.  The schema block is printed
unconditionally (its inner try/except never escapes); the row read either
raises, in which case the matching except clause prints to stderr and the
process exits 1, or returns a batch, which is printed, followed by the note
block and the closing dashes, with exit code 0. -/
def read_parquet_info_polars (file_path : String) (num_rows : Int)
    (lib : LibOracle) : Output :=
  match lib.readParquet num_rows with
  | .error exc =>
      { stdout := preReadStdout file_path num_rows lib.schemaRead
        stderr := errLines file_path exc
        exitCode := 1 }
  | .ok df =>
      { stdout := preReadStdout file_path num_rows lib.schemaRead
          ++ [df.render]
          ++ rowNote df num_rows lib.readMetadata
          ++ [dashLine]
        stderr := []
        exitCode := 0 }

/-- The argparse default: `--num_rows` falls back to `DEFAULT_NUM_ROWS`. -/
def parseNumRows (given : Option Int) : Int := given.getD DEFAULT_NUM_ROWS

/-- The main execution block: parse the optional row count, then call
`read_parquet_info_polars`. -/
def mainCli (file_path : String) (numRowsArg : Option Int)
    (lib : LibOracle) : Output :=
  read_parquet_info_polars file_path (parseNumRows numRowsArg) lib

/-- Modelled from the spec: the external collaborators on a valid columnar
file (spec section 6, which describes behavior of the libraries, not code of
this repository).  The schema read succeeds; the row reader, given a maximum
row count, returns the batch of the first rows of the file, possibly fewer
than requested when the file has fewer; the metadata read returns the total
row count. -/
def validFile (schemaStr : String) (rows : List (List String)) : LibOracle where
  schemaRead := .ok schemaStr
  readParquet := fun n => .ok ⟨rows.take n.toNat⟩
  readMetadata := .ok rows.length

/-- An oracle whose row read raises ImportError, exercising the
missing-library except clause. -/
def importFailLib : LibOracle where
  schemaRead := .ok "s"
  readParquet := fun _ => .error .importError
  readMetadata := .error ()

/-- An oracle whose row read raises a Polars compute error. -/
def computeFailLib : LibOracle where
  schemaRead := .ok "s"
  readParquet := fun _ => .error (.computeError "bad page")
  readMetadata := .error ()

/-- An oracle that succeeds at the row limit minus one only, used to show the
program consults the row reader at exactly the passed limit. -/
def pointLib : LibOracle where
  schemaRead := .ok "s"
  readParquet := fun n => if n = -1 then .ok ⟨[]⟩ else .error .noDataError
  readMetadata := .ok 5

/-- C7: omitting the row-count option behaves exactly as passing 3. -/
theorem c7_default_num_rows (fp : String) (lib : LibOracle) :
    mainCli fp none lib = mainCli fp (some 3) lib := rfl

/-- C10: the program is deterministic: same file path, same requested row
count, and identical results from the schema, row-reading and metadata
library calls give identical standard output, error output and exit code. -/
theorem c10_deterministic (fp : String) (n : Int) (lib lib2 : LibOracle)
    (hs : lib.schemaRead = lib2.schemaRead)
    (hr : lib.readParquet = lib2.readParquet)
    (hm : lib.readMetadata = lib2.readMetadata) :
    (read_parquet_info_polars fp n lib).stdout
        = (read_parquet_info_polars fp n lib2).stdout ∧
    (read_parquet_info_polars fp n lib).stderr
        = (read_parquet_info_polars fp n lib2).stderr ∧
    (read_parquet_info_polars fp n lib).exitCode
        = (read_parquet_info_polars fp n lib2).exitCode := by
  obtain ⟨s1, r1, m1⟩ := lib
  obtain ⟨s2, r2, m2⟩ := lib2
  cases hs; cases hr; cases hm
  exact ⟨rfl, rfl, rfl⟩

/-- Witness for C10 at a concrete input. -/
theorem c10_deterministic_witness :
    (read_parquet_info_polars "f.parquet" 3 importFailLib).stdout
        = (read_parquet_info_polars "f.parquet" 3 importFailLib).stdout ∧
    (read_parquet_info_polars "f.parquet" 3 importFailLib).stderr
        = (read_parquet_info_polars "f.parquet" 3 importFailLib).stderr ∧
    (read_parquet_info_polars "f.parquet" 3 importFailLib).exitCode
        = (read_parquet_info_polars "f.parquet" 3 importFailLib).exitCode :=
  c10_deterministic "f.parquet" 3 importFailLib importFailLib rfl rfl rfl

/-- C9: the program passes `num_rows` unchanged, for every integer including
zero and negative values, as the row limit of the single row-read call: its
whole behavior depends on the row reader only through the value of the reader
at exactly `num_rows`, so no clamping, validation or rejection happens at any
stage. -/
theorem c9_num_rows_passthrough (fp : String) (n : Int) (lib lib2 : LibOracle)
    (hs : lib.schemaRead = lib2.schemaRead)
    (hr : lib.readParquet n = lib2.readParquet n)
    (hm : lib.readMetadata = lib2.readMetadata) :
    read_parquet_info_polars fp n lib = read_parquet_info_polars fp n lib2 := by
  unfold read_parquet_info_polars
  rw [hs, hr, hm]

/-- Witness for C9: two oracles that agree only at the negative limit -1
produce equal outputs there. -/
theorem c9_num_rows_passthrough_witness :
    read_parquet_info_polars "f.parquet" (-1) pointLib
      = read_parquet_info_polars "f.parquet" (-1)
          { schemaRead := .ok "s"
            readParquet := fun _ => .ok ⟨[]⟩
            readMetadata := .ok 5 } :=
  c9_num_rows_passthrough "f.parquet" (-1) pointLib _ rfl rfl rfl

/-- An oracle whose schema read fails but whose row read succeeds. -/
def schemaFailLib : LibOracle where
  schemaRead := .error "boom"
  readParquet := fun _ => .ok ⟨[["x"]]⟩
  readMetadata := .ok 1

/-- An oracle whose row read returns a zero-row batch while the metadata
says the file is empty. -/
def emptyOkLib : LibOracle where
  schemaRead := .ok "s"
  readParquet := fun _ => .ok ⟨[]⟩
  readMetadata := .ok 0

/-- C1: on a valid file with m rows and a requested count k greater than 0,
the program exits 0 with empty error output, prints the batch of the first
min(k, m) rows, and when the file is nonempty the note block emits nothing,
in particular no empty-file note. -/
theorem c1_valid_file_min_rows (fp s : String) (rows : List (List String))
    (k : Int) (hk : 0 < k) :
    (read_parquet_info_polars fp k (validFile s rows)).exitCode = 0 ∧
    (read_parquet_info_polars fp k (validFile s rows)).stderr = [] ∧
    (DataFrame.mk (rows.take k.toNat)).render
        ∈ (read_parquet_info_polars fp k (validFile s rows)).stdout ∧
    (DataFrame.mk (rows.take k.toNat)).height = min k.toNat rows.length ∧
    (0 < rows.length →
      rowNote (DataFrame.mk (rows.take k.toNat)) k
          (validFile s rows).readMetadata = []) := by
  refine ⟨rfl, rfl, ?_, ?_, ?_⟩
  · simp [read_parquet_info_polars, validFile, preReadStdout, schemaBlock,
      rowHeader]
  · simp [DataFrame.height, List.length_take]
  · intro hm
    have hk0 : 0 < k.toNat := by omega
    simp only [rowNote, validFile, DataFrame.height, List.length_take]
    rw [if_neg]
    rintro ⟨h0, -⟩
    omega

/-- Witness for C1 at a two-row file with k = 1. -/
theorem c1_valid_file_min_rows_witness :
    (read_parquet_info_polars "f" 1 (validFile "sch" [["a"], ["b"]])).exitCode
        = 0 ∧
    (read_parquet_info_polars "f" 1 (validFile "sch" [["a"], ["b"]])).stderr
        = [] ∧
    (DataFrame.mk ([["a"], ["b"]].take (1 : Int).toNat)).render
        ∈ (read_parquet_info_polars "f" 1
            (validFile "sch" [["a"], ["b"]])).stdout ∧
    (DataFrame.mk ([["a"], ["b"]].take (1 : Int).toNat)).height
        = min (1 : Int).toNat [["a"], ["b"]].length ∧
    (0 < [["a"], ["b"]].length →
      rowNote (DataFrame.mk ([["a"], ["b"]].take (1 : Int).toNat)) 1
          (validFile "sch" [["a"], ["b"]]).readMetadata = []) :=
  c1_valid_file_min_rows "f" "sch" [["a"], ["b"]] 1 (by decide)

/-- C2: when the schema read fails, its failure reason is printed in the
warning line, the row-read header is still printed (the program continues to
the row read), a run whose row read succeeds still exits 0, and a run whose
row read fails exits 1. -/
theorem c2_schema_failure_nonfatal (fp e : String) (n : Int) (lib : LibOracle)
    (hs : lib.schemaRead = .error e) :
    ("Could not read schema using pyarrow: " ++ e)
        ∈ (read_parquet_info_polars fp n lib).stdout ∧
    ("First " ++ toString n ++ " rows from " ++ fp ++ " (via Polars):")
        ∈ (read_parquet_info_polars fp n lib).stdout ∧
    (∀ df, lib.readParquet n = .ok df →
        (read_parquet_info_polars fp n lib).exitCode = 0) ∧
    (∀ exc, lib.readParquet n = .error exc →
        (read_parquet_info_polars fp n lib).exitCode = 1) := by
  cases hr : lib.readParquet n with
  | ok df =>
      refine ⟨?_, ?_, ?_, ?_⟩ <;>
        simp [read_parquet_info_polars, preReadStdout, schemaBlock, rowHeader,
          hs, hr]
  | error exc =>
      refine ⟨?_, ?_, ?_, ?_⟩ <;>
        simp [read_parquet_info_polars, preReadStdout, schemaBlock, rowHeader,
          hs, hr]

/-- Witness for C2 at a concrete failing schema read. -/
theorem c2_schema_failure_nonfatal_witness :
    ("Could not read schema using pyarrow: " ++ "boom")
        ∈ (read_parquet_info_polars "f" 3 schemaFailLib).stdout ∧
    ("First " ++ toString (3 : Int) ++ " rows from " ++ "f" ++ " (via Polars):")
        ∈ (read_parquet_info_polars "f" 3 schemaFailLib).stdout ∧
    (∀ df, schemaFailLib.readParquet 3 = .ok df →
        (read_parquet_info_polars "f" 3 schemaFailLib).exitCode = 0) ∧
    (∀ exc, schemaFailLib.readParquet 3 = .error exc →
        (read_parquet_info_polars "f" 3 schemaFailLib).exitCode = 1) :=
  c2_schema_failure_nonfatal "f" "boom" 3 schemaFailLib rfl

/-- C3 counterexample: in the missing-library failure class the program
prints two lines to the error stream, not exactly one. -/
theorem c3_two_line_import_diag :
    (read_parquet_info_polars "f.parquet" 3 importFailLib).exitCode = 1 ∧
    (read_parquet_info_polars "f.parquet" 3 importFailLib).stderr.length
      = 2 := by
  exact ⟨rfl, rfl⟩

/-- C3 amended: the exit code is 1 exactly when the row read raises one of
the five fatal exception classes; every such run prints its diagnostic only
to the error stream, one line for each class except the missing-library
class, which prints two lines; a successful row read leaves the error stream
empty. -/
theorem c3_exit_iff_fatal (fp : String) (n : Int) (lib : LibOracle) :
    ((read_parquet_info_polars fp n lib).exitCode = 1 ↔
        ∃ exc, lib.readParquet n = .error exc) ∧
    (∀ exc, lib.readParquet n = .error exc →
        (read_parquet_info_polars fp n lib).stderr.length
          = (if exc = ReadExc.importError then 2 else 1)) ∧
    (∀ df, lib.readParquet n = .ok df →
        (read_parquet_info_polars fp n lib).stderr = []) := by
  cases hr : lib.readParquet n with
  | ok df =>
      refine ⟨by simp [read_parquet_info_polars, hr], ?_, ?_⟩
      · intro e he
        exact absurd he (by simp)
      · intro d hd
        simp [read_parquet_info_polars, hr]
  | error exc =>
      refine ⟨by simp [read_parquet_info_polars, hr], ?_, ?_⟩
      · intro e he
        injection he with he'
        subst he'
        cases exc <;> simp [read_parquet_info_polars, hr, errLines]
      · intro d hd
        exact absurd hd (by simp)

/-- Witness for the amended C3 at a compute-error run. -/
theorem c3_exit_iff_fatal_witness :
    (read_parquet_info_polars "g" 2 computeFailLib).stderr.length = 1 := by
  have h := (c3_exit_iff_fatal "g" 2 computeFailLib).2.1
    (ReadExc.computeError "bad page") rfl
  have hne : ReadExc.computeError "bad page" ≠ ReadExc.importError := by
    decide
  rwa [if_neg hne] at h

/-- C4: when the returned batch has zero rows and the requested count is
positive, the run exits 0 and the note block resolves by the metadata read:
the empty-file note exactly when the metadata reports 0 total rows, the
zero-rows-read note when the metadata reports a nonzero total, and the
metadata-failure note, which also reports 0 rows read without asserting
emptiness, when the metadata read fails; the chosen note is part of the
printed standard output. -/
theorem c4_zero_height_note (fp : String) (n : Int) (lib : LibOracle)
    (df : DataFrame) (hn : 0 < n) (hdf : lib.readParquet n = .ok df)
    (hh : df.height = 0) :
    (read_parquet_info_polars fp n lib).exitCode = 0 ∧
    (read_parquet_info_polars fp n lib).stdout
      = preReadStdout fp n lib.schemaRead ++ [df.render]
          ++ rowNote df n lib.readMetadata ++ [dashLine] ∧
    (lib.readMetadata = .ok 0 → rowNote df n lib.readMetadata = [emptyNote]) ∧
    (∀ m, lib.readMetadata = .ok m → 0 < m →
        rowNote df n lib.readMetadata = [readRowsNote 0]) ∧
    (lib.readMetadata = .error () →
        rowNote df n lib.readMetadata = [metaFailNote]) := by
  refine ⟨?_, ?_, ?_, ?_, ?_⟩
  · simp [read_parquet_info_polars, hdf]
  · simp [read_parquet_info_polars, hdf]
  · intro hm
    simp [rowNote, hh, hn, hm]
  · intro m hm hmpos
    have hm0 : m ≠ 0 := by omega
    simp [rowNote, hh, hn, hm, hm0]
  · intro hm
    simp [rowNote, hh, hn, hm]

/-- Witness for C4 at an empty file. -/
theorem c4_zero_height_note_witness :
    (read_parquet_info_polars "f" 3 emptyOkLib).exitCode = 0 ∧
    rowNote ⟨[]⟩ 3 emptyOkLib.readMetadata = [emptyNote] := by
  have h := c4_zero_height_note "f" 3 emptyOkLib ⟨[]⟩ (by decide) rfl rfl
  exact ⟨h.1, h.2.2.1 rfl⟩

/-- C5 counterexample: with a requested count of 0 on a valid one-row file
the program exits 0 but prints no note at all, in particular no line
reporting that 0 rows were read. -/
theorem c5_no_note_at_zero :
    (read_parquet_info_polars "f" 0 (validFile "s" [["a"]])).exitCode = 0 ∧
    readRowsNote 0 ∉ (read_parquet_info_polars "f" 0
        (validFile "s" [["a"]])).stdout ∧
    emptyNote ∉ (read_parquet_info_polars "f" 0
        (validFile "s" [["a"]])).stdout := by
  refine ⟨rfl, by decide, by decide⟩

/-- C5 amended: for a requested count of 0 whose row read succeeds, the
program exits 0 and the note block is skipped entirely, because the
requested count is not greater than zero: neither the rows-read note nor the
empty-file note is printed. -/
theorem c5_zero_num_rows (fp : String) (lib : LibOracle) (df : DataFrame)
    (hdf : lib.readParquet 0 = .ok df) :
    (read_parquet_info_polars fp 0 lib).exitCode = 0 ∧
    rowNote df 0 lib.readMetadata = [] ∧
    (read_parquet_info_polars fp 0 lib).stdout
      = preReadStdout fp 0 lib.schemaRead ++ [df.render] ++ [dashLine] := by
  have hnote : rowNote df 0 lib.readMetadata = [] := by
    simp [rowNote]
  refine ⟨?_, hnote, ?_⟩
  · simp [read_parquet_info_polars, hdf]
  · simp [read_parquet_info_polars, hdf, hnote]

/-- Witness for the amended C5 on a valid one-row file. -/
theorem c5_zero_num_rows_witness :
    (read_parquet_info_polars "f" 0 (validFile "s" [["a"]])).exitCode = 0 ∧
    rowNote ⟨[]⟩ 0 (validFile "s" [["a"]]).readMetadata = [] ∧
    (read_parquet_info_polars "f" 0 (validFile "s" [["a"]])).stdout
      = preReadStdout "f" 0 (.ok "s") ++ [DataFrame.render ⟨[]⟩]
          ++ [dashLine] :=
  c5_zero_num_rows "f" (validFile "s" [["a"]]) ⟨[]⟩ rfl

/-- C6: when the row read raises ImportError, the run exits 1 and the error
stream carries the missing-library diagnostic, including the line telling
the user to install the dependencies. -/
theorem c6_missing_library (fp : String) (n : Int) (lib : LibOracle)
    (h : lib.readParquet n = .error .importError) :
    (read_parquet_info_polars fp n lib).exitCode = 1 ∧
    (read_parquet_info_polars fp n lib).stderr = errLines fp .importError ∧
    "Run: pip install polars pyarrow"
        ∈ (read_parquet_info_polars fp n lib).stderr := by
  refine ⟨?_, ?_, ?_⟩ <;> simp [read_parquet_info_polars, h, errLines]

/-- Witness for C6 at a concrete ImportError run. -/
theorem c6_missing_library_witness :
    (read_parquet_info_polars "f.parquet" 3 importFailLib).exitCode = 1 ∧
    (read_parquet_info_polars "f.parquet" 3 importFailLib).stderr
        = errLines "f.parquet" .importError ∧
    "Run: pip install polars pyarrow"
        ∈ (read_parquet_info_polars "f.parquet" 3 importFailLib).stderr :=
  c6_missing_library "f.parquet" 3 importFailLib rfl

/-- C8: the lines printed to standard output before the row read are an
initial segment of the final standard output in every run, and when the row
read fails, the error path adds nothing to standard output: standard output
is exactly what was printed before the failure and the diagnostic lines go
only to the error stream. -/
theorem c8_failure_preserves_stdout (fp : String) (n : Int)
    (lib : LibOracle) :
    (∃ t, (read_parquet_info_polars fp n lib).stdout
        = preReadStdout fp n lib.schemaRead ++ t) ∧
    (∀ exc, lib.readParquet n = .error exc →
        (read_parquet_info_polars fp n lib).stdout
            = preReadStdout fp n lib.schemaRead ∧
        (read_parquet_info_polars fp n lib).stderr = errLines fp exc) := by
  cases hr : lib.readParquet n with
  | ok df =>
      refine ⟨⟨[df.render] ++ rowNote df n lib.readMetadata ++ [dashLine],
        ?_⟩, ?_⟩
      · simp [read_parquet_info_polars, hr]
      · intro exc he
        exact absurd he (by simp)
  | error exc =>
      refine ⟨⟨[], ?_⟩, ?_⟩
      · simp [read_parquet_info_polars, hr]
      · intro e he
        injection he with he'
        subst he'
        exact ⟨by simp [read_parquet_info_polars, hr],
          by simp [read_parquet_info_polars, hr]⟩

/-- Witness for C8 at a concrete compute-error run. -/
theorem c8_failure_preserves_stdout_witness :
    (read_parquet_info_polars "g" 2 computeFailLib).stdout
        = preReadStdout "g" 2 computeFailLib.schemaRead ∧
    (read_parquet_info_polars "g" 2 computeFailLib).stderr
        = errLines "g" (ReadExc.computeError "bad page") :=
  (c8_failure_preserves_stdout "g" 2 computeFailLib).2
    (ReadExc.computeError "bad page") rfl

end ReadParquet
